import Mathlib

/-
Verification of the simulation core of mini_gta (src/main.py): a shallow
embedding of the world model, the pedestrian/vehicle movement updates, the
possession (enter/exit vehicle) logic, the Konami-code boost mode, and the
camera, together with theorems settling the specification's claims.

Modelling conventions:
* Python floats are modelled as real numbers.
* `pygame.math.Vector2` is modelled by `Vec2` (a pair of reals) with the
  operations the source uses: `+`, `-`, scalar `*`, `length`
  (`sqrt (x*x + y*y)`), `length_squared`, `normalize` (divide by length),
  `scale_to_length L` (multiply by `L / length`).
* `pygame.Rect` is modelled by `Rect` with real coordinates (pygame truncates
  rect coordinates to machine ints; that presentation detail is abstracted
  away, and every concrete instance below uses integer coordinates where the
  truncation is the identity).  `Rect.colliderect` returns true exactly when
  the open interiors intersect (pygame: `a.left < b.right and b.left <
  a.right and a.top < b.bottom and b.top < a.bottom`), modelled by `overlaps`.
* `r = Rect(0,0,w,h); r.center = pos` is modelled by `rectCenter pos w h`.
* The `for b in buildings: if ... : break` scan is modelled by the
  list-recursive proposition `anyOverlap`; `anyOverlap_iff` relates it to
  membership.  The break matters only for how often the loop body runs; in
  `Car.update` the body (`vel *= -0.35`) runs exactly once before the break,
  so the resulting state depends only on whether some building collides.
* Keyboard state is the bundle of direction flags the source reads
  (`K_w or K_UP`, etc.) plus the held `K_r`; KEYDOWN events are a list of
  `Key`s per tick (`Key.other` stands for any key that is none of the keys
  the event loop inspects).  QUIT / ESC / F10 end the session and are
  outside the per-tick step.
* `random.*` draws are inputs: NPC resampling draws and the marker
  relocation target are supplied in `Input`.
-/

set_option maxHeartbeats 1000000

noncomputable section

open scoped Classical

namespace MiniGta

/-- World extent, src/main.py line 27: `WORLD_W, WORLD_H = 6000, 4000`. -/
def WORLD_W : ℝ := 6000

/-- World extent, src/main.py line 27. -/
def WORLD_H : ℝ := 4000

/-- Viewport width, line 9: `SCREEN_W, SCREEN_H = 1280, 720`. -/
def SCREEN_W : ℝ := 1280

/-- Viewport height, line 9. -/
def SCREEN_H : ℝ := 720

/-- Line 41: `def clamp(x, a, b): return max(a, min(b, x))`. -/
def clamp (x a b : ℝ) : ℝ := max a (min b x)

/-- pygame.math.Vector2, as used by the source. -/
@[ext] structure Vec2 where
  x : ℝ
  y : ℝ

instance : Add Vec2 := ⟨fun v w => ⟨v.x + w.x, v.y + w.y⟩⟩
instance : Sub Vec2 := ⟨fun v w => ⟨v.x - w.x, v.y - w.y⟩⟩
instance : SMul ℝ Vec2 := ⟨fun t v => ⟨t * v.x, t * v.y⟩⟩
instance : Zero Vec2 := ⟨⟨0, 0⟩⟩

@[simp] theorem Vec2.add_mk (a b c d : ℝ) :
    (⟨a, b⟩ + ⟨c, d⟩ : Vec2) = ⟨a + c, b + d⟩ := rfl

@[simp] theorem Vec2.sub_mk (a b c d : ℝ) :
    (⟨a, b⟩ - ⟨c, d⟩ : Vec2) = ⟨a - c, b - d⟩ := rfl

@[simp] theorem Vec2.smul_mk (t a b : ℝ) :
    (t • (⟨a, b⟩ : Vec2)) = ⟨t * a, t * b⟩ := rfl

@[simp] theorem Vec2.add_x (v w : Vec2) : (v + w).x = v.x + w.x := rfl
@[simp] theorem Vec2.add_y (v w : Vec2) : (v + w).y = v.y + w.y := rfl
@[simp] theorem Vec2.sub_x (v w : Vec2) : (v - w).x = v.x - w.x := rfl
@[simp] theorem Vec2.sub_y (v w : Vec2) : (v - w).y = v.y - w.y := rfl
@[simp] theorem Vec2.smul_x (t : ℝ) (v : Vec2) : (t • v).x = t * v.x := rfl
@[simp] theorem Vec2.smul_y (t : ℝ) (v : Vec2) : (t • v).y = t * v.y := rfl
@[simp] theorem Vec2.zero_def : (0 : Vec2) = ⟨0, 0⟩ := rfl

/-- `Vector2.length()`: Euclidean norm. -/
def Vec2.length (v : Vec2) : ℝ := Real.sqrt (v.x ^ 2 + v.y ^ 2)

/-- `Vector2.length_squared()`. -/
def Vec2.length_squared (v : Vec2) : ℝ := v.x ^ 2 + v.y ^ 2

/-- `Vector2.normalize()`: the vector divided by its length (the source only
calls it on vectors it has checked to be nonzero). -/
def Vec2.normalize (v : Vec2) : Vec2 := (1 / v.length) • v

/-- `Vector2.scale_to_length(L)`: multiply by `L / length`. -/
def Vec2.scale_to_length (v : Vec2) (L : ℝ) : Vec2 := (L / v.length) • v

theorem Vec2.length_smul (t : ℝ) (v : Vec2) :
    (t • v).length = |t| * v.length := by
  unfold Vec2.length
  simp only [Vec2.smul_x, Vec2.smul_y]
  rw [mul_pow, mul_pow, ← mul_add, Real.sqrt_mul (sq_nonneg t),
    Real.sqrt_sq_eq_abs]

theorem Vec2.length_nonneg (v : Vec2) : 0 ≤ v.length := Real.sqrt_nonneg _

/-- pygame.Rect (coordinates abstracted from ints to reals, see header). -/
structure Rect where
  left : ℝ
  top : ℝ
  width : ℝ
  height : ℝ

/-- Right edge of a rect. -/
def Rect.right (r : Rect) : ℝ := r.left + r.width

/-- Bottom edge of a rect. -/
def Rect.bottom (r : Rect) : ℝ := r.top + r.height

/-- `Rect(0,0,w,h)` followed by `r.center = pos` (lines 62-63, 77-78, ...). -/
def rectCenter (pos : Vec2) (w h : ℝ) : Rect :=
  ⟨pos.x - w / 2, pos.y - h / 2, w, h⟩

/-- `a.colliderect(b)`: positive-area intersection, strict inequalities. -/
def overlaps (a b : Rect) : Prop :=
  a.left < b.right ∧ b.left < a.right ∧ a.top < b.bottom ∧ b.top < a.bottom

/-- The `for b in buildings: if rect.colliderect(b.rect): ...; break` scan:
true iff some listed rectangle collides. -/
def anyOverlap (r : Rect) : List Rect → Prop
  | [] => False
  | b :: bs => overlaps r b ∨ anyOverlap r bs

theorem anyOverlap_iff (r : Rect) (bs : List Rect) :
    anyOverlap r bs ↔ ∃ b ∈ bs, overlaps r b := by
  induction bs with
  | nil => simp [anyOverlap]
  | cons b bs ih => simp [anyOverlap, ih]

/-- Clamp a position into world bounds (lines 87-88, 145, 187-188, 394). -/
def clampWorld (v : Vec2) : Vec2 :=
  ⟨clamp v.x 0 WORLD_W, clamp v.y 0 WORLD_H⟩

/-- Camera (lines 44-52). -/
structure Camera where
  pos : Vec2
  w : ℝ
  h : ℝ

/-- `Camera.update(target_pos)` (lines 48-50). -/
def Camera.update (c : Camera) (target : Vec2) : Camera :=
  { c with pos := ⟨clamp (target.x - c.w / 2) 0 (WORLD_W - c.w),
                   clamp (target.y - c.h / 2) 0 (WORLD_H - c.h)⟩ }

/-- Camera at program start (line 276): viewport 1280 x 720, offset (0,0). -/
def initCam : Camera := ⟨⟨0, 0⟩, SCREEN_W, SCREEN_H⟩

/-- The direction-flag and held-key bundle the source reads from
`pygame.key.get_pressed()`: each direction flag is the disjunction the source
tests (e.g. `keys[K_w] or keys[K_UP]`), `r` is `keys[K_r]`. -/
structure Keys where
  up : Bool
  down : Bool
  left : Bool
  right : Bool
  r : Bool

/-- All keys released. -/
def kFalse : Keys := ⟨false, false, false, false, false⟩

/-- Player (lines 55-64): position, speed, square bounding size, and the
possessed-vehicle reference (`in_car`; the world has a single car, so the
reference is modelled by a Bool). -/
structure Player where
  pos : Vec2
  speed : ℝ
  size : ℝ
  in_car : Bool

/-- `Player.rect()` (lines 61-64). -/
def Player.rect (p : Player) : Rect := rectCenter p.pos p.size p.size

/-- `Player(pos)` construction (lines 56-60). -/
def mkPlayer (pos : Vec2) : Player := ⟨pos, 300, 24, false⟩

/-- Intent vector from the four direction flags (lines 68-72): start from
`(0,0)`, up adds `(0,-1)`, down `(0,1)`, left `(-1,0)`, right `(1,0)`. -/
def dirFromKeys (k : Keys) : Vec2 :=
  ⟨(if k.left then (-1 : ℝ) else 0) + (if k.right then (1 : ℝ) else 0),
   (if k.up then (-1 : ℝ) else 0) + (if k.down then (1 : ℝ) else 0)⟩

/-- `Player.update(dt, keys, buildings)` (lines 65-88): in a car, do nothing;
else build the intent vector, and when it is nonzero normalize it and move to
`pos + dir*speed*dt` unless that candidate's rect collides with any building
(all-or-nothing rejection); finally clamp the position to world bounds. -/
def Player.update (p : Player) (dt : ℝ) (k : Keys) (bs : List Rect) : Player :=
  if p.in_car then p
  else
    let dirv := dirFromKeys k
    let p1 :=
      if dirv.length_squared > 0 then
        let newpos := p.pos + (p.speed * dt) • dirv.normalize
        if anyOverlap (rectCenter newpos p.size p.size) bs then p
        else { p with pos := newpos }
      else p
    { p1 with pos := clampWorld p1.pos }

/-- Car (lines 97-112): position, velocity, heading angle in degrees,
bounding size, physical constants, driver reference (single player: Bool). -/
structure Car where
  pos : Vec2
  vel : Vec2
  angle : ℝ
  size : Vec2
  max_speed : ℝ
  accel : ℝ
  brake : ℝ
  turn_speed : ℝ
  friction : ℝ
  driver : Bool

/-- `Car.rect()` (lines 109-112). -/
def Car.rect (c : Car) : Rect := rectCenter c.pos c.size.x c.size.y

/-- `Car(pos)` construction (lines 98-108). -/
def mkCar (pos : Vec2) : Car :=
  ⟨pos, ⟨0, 0⟩, 0, ⟨56, 32⟩, 900, 1400, 2600, 160, 0.985, false⟩

/-- `math.radians`: degrees to radians. -/
def radians (d : ℝ) : ℝ := d * (Real.pi / 180)

/-- Driver-input phase of `Car.update` (lines 114-127): with a driver,
throttle adds `accel*dt` along the heading's forward vector, brake subtracts
`brake*dt*0.5`, and the turn keys change the angle by `turn_speed*dt*
speed_factor` where `speed_factor = clamp(|vel|/200, 0.15, 1.2)` is computed
from the already throttled/braked velocity.  Without a driver: no change. -/
def Car.applyInput (c : Car) (dt : ℝ) (k : Keys) : Car :=
  if c.driver then
    let forward : Vec2 := ⟨Real.cos (radians c.angle), Real.sin (radians c.angle)⟩
    let v1 := if k.up then c.vel + (c.accel * dt) • forward else c.vel
    let v2 := if k.down then v1 - (c.brake * dt * 0.5) • forward else v1
    let sf := clamp (v2.length / 200) 0.15 1.2
    let a1 := if k.left then c.angle - c.turn_speed * dt * sf else c.angle
    let a2 := if k.right then a1 + c.turn_speed * dt * sf else a1
    { c with vel := v2, angle := a2 }
  else c

/-- Friction and speed-clamp phase of `Car.update` (lines 129-131):
`vel *= friction; if vel.length() > max_speed: vel.scale_to_length(max_speed)`. -/
def frictClamp (v : Vec2) (friction max_speed : ℝ) : Vec2 :=
  let v3 := friction • v
  if v3.length > max_speed then v3.scale_to_length max_speed else v3

/-- `Car.update(dt, keys, buildings)` (lines 113-145): driver input, then
friction/speed clamp, then candidate `pos + vel*dt`; on the first building
whose rect collides with the candidate's rect, `vel *= -0.35` and the
candidate is recomputed from the reversed velocity and accepted without
re-checking (the loop breaks); the final position is clamped to world
bounds. -/
def Car.update (c : Car) (dt : ℝ) (k : Keys) (bs : List Rect) : Car :=
  let c1 := c.applyInput dt k
  let v := frictClamp c1.vel c1.friction c1.max_speed
  let newpos := c1.pos + dt • v
  if anyOverlap (rectCenter newpos c1.size.x c1.size.y) bs then
    { c1 with vel := (-0.35 : ℝ) • v,
              pos := clampWorld (c1.pos + dt • ((-0.35 : ℝ) • v)) }
  else
    { c1 with vel := v, pos := clampWorld newpos }

/-- NPC (lines 161-169): position, wander speed, current unit direction,
resample countdown timer, square bounding size. -/
structure NPC where
  pos : Vec2
  speed : ℝ
  dir : Vec2
  timer : ℝ
  size : ℝ

/-- A resampling draw for one NPC: the new timer value (`random.uniform(1,4)`)
and the raw direction sample (`Vector2(random.uniform(-1,1),
random.uniform(-1,1))`). -/
structure NpcRnd where
  timer : ℝ
  raw : Vec2

/-- Timer phase of `NPC.update` (lines 171-176): `timer -= dt`; on expiry
reset the timer from the draw and take the normalized raw direction,
substituting `(1,0)` for a zero-length sample. -/
def NPC.tick (n : NPC) (dt : ℝ) (rnd : NpcRnd) : NPC :=
  let t := n.timer - dt
  if t ≤ 0 then
    { n with timer := rnd.timer,
             dir := (if rnd.raw.length = 0 then (⟨1, 0⟩ : Vec2) else rnd.raw).normalize }
  else { n with timer := t }

/-- Movement phase of `NPC.update` (lines 177-188): candidate
`pos + dir*speed*dt`, rejected in full when its rect collides with any
building, then clamp into world bounds. -/
def NPC.move (n : NPC) (dt : ℝ) (bs : List Rect) : NPC :=
  let newpos := n.pos + (n.speed * dt) • n.dir
  let n2 := if anyOverlap (rectCenter newpos n.size n.size) bs then n
            else { n with pos := newpos }
  { n2 with pos := clampWorld n2.pos }

/-- `NPC.update(dt, buildings)` (lines 170-188), with the random draw made
explicit: the timer phase followed by the movement phase. -/
def NPC.update (n : NPC) (dt : ℝ) (bs : List Rect) (rnd : NpcRnd) : NPC :=
  (n.tick dt rnd).move dt bs

/-- `NPC(pos)` construction (lines 162-169) with the draws explicit:
speed `uniform(30,110)`, direction the normalized raw sample ((1,0) when the
sample is zero length), timer `uniform(1,4)`, size 20. -/
def mkNPC (pos : Vec2) (speed : ℝ) (raw : Vec2) (timer : ℝ) : NPC :=
  ⟨pos, speed, (if raw.length = 0 then (⟨1, 0⟩ : Vec2) else raw).normalize, timer, 20⟩

/-- `dist(a,b) = (a-b).length()` (line 273). -/
def dist (a b : Vec2) : ℝ := (a - b).length

/-- Keys as seen in KEYDOWN events (lines 344-359): the event loop inspects
`K_e`, `K_F1`, and the Konami sequence keys `K_UP K_DOWN K_LEFT K_RIGHT K_b
K_a`; `other` stands for any other key (it still enters `konami_progress`). -/
inductive Key where
  | up
  | down
  | left
  | right
  | b
  | a
  | e
  | f1
  | other
deriving DecidableEq

/-- The Konami code (lines 331-333). -/
def konami_code : List Key :=
  [.up, .up, .down, .down, .left, .right, .left, .right, .b, .a]

/-- Python `l[-n:]`: the last `n` elements (all of `l` when it is shorter). -/
def lastN (n : Nat) (l : List Key) : List Key := l.drop (l.length - n)

/-- Per-tick event-loop accumulator: `e_pressed` (line 340), `show_debug`
(lines 349-350), and the Konami detector state (lines 334-336, 352-358). -/
structure EvAcc where
  e_pressed : Bool
  show_debug : Bool
  progress : List Key
  active : Bool
  timer : ℝ

/-- One KEYDOWN event (lines 344-358): set `e_pressed` on `K_e`, toggle
debug on `K_F1`, append the key to `konami_progress`, activate Konami mode
and zero its timer when the last 10 keys equal the code, and trim the
progress list to the last 10 keys. -/
def processEvent (st : EvAcc) (k : Key) : EvAcc :=
  let ep := if k = Key.e then true else st.e_pressed
  let sd := if k = Key.f1 then !st.show_debug else st.show_debug
  let prog := st.progress ++ [k]
  let matched := lastN konami_code.length prog = konami_code
  let act := if matched then true else st.active
  let tm := if matched then (0 : ℝ) else st.timer
  let prog2 := if konami_code.length < prog.length then lastN konami_code.length prog
               else prog
  ⟨ep, sd, prog2, act, tm⟩

/-- The whole simulation state mutated by one pass of the main loop
(lines 338-501), rendering aside. -/
structure GameState where
  buildings : List Rect
  player : Player
  car : Car
  npcs : List NPC
  cam : Camera
  marker : Vec2
  show_debug : Bool
  progress : List Key
  konami_active : Bool
  konami_timer : ℝ

/-- The per-tick inputs the loop consumes: measured `dt` (line 339), the
KEYDOWN events in order, the held-key state (line 361), and the random draws
used by NPC resampling and marker relocation. -/
structure Input where
  dt : ℝ
  events : List Key
  keys : Keys
  npcRnds : Nat → NpcRnd
  markerRnd : Vec2

/-- The `if e_pressed:` enter/exit handling (lines 369-398).  Enter: on foot
and within 80 units of the car, set both link sides and snap the player to
the car's position.  Exit: compute the exit point 70 units along
heading+90; if its rect collides with any building, use heading-90 instead
(unchecked); clamp to world bounds, clear both link sides, damp the car's
velocity by 0.6. -/
def handleE (s : GameState) : GameState :=
  if s.player.in_car = false ∧ dist s.player.pos s.car.pos < 80 then
    { s with player := { s.player with in_car := true, pos := s.car.pos },
             car := { s.car with driver := true } }
  else if s.player.in_car then
    let off : Vec2 := ⟨Real.cos (radians (s.car.angle + 90)) * 70,
                       Real.sin (radians (s.car.angle + 90)) * 70⟩
    let exit1 := s.car.pos + off
    let exit2 :=
      if anyOverlap (rectCenter exit1 s.player.size s.player.size) s.buildings then
        s.car.pos + (⟨Real.cos (radians (s.car.angle - 90)) * 70,
                      Real.sin (radians (s.car.angle - 90)) * 70⟩ : Vec2)
      else exit1
    { s with player := { s.player with pos := clampWorld exit2, in_car := false },
             car := { s.car with driver := false, vel := (0.6 : ℝ) • s.car.vel } }
  else s

/-- The Konami effect block (lines 400-411): while active, advance the hue
timer and override the player's speed to 1200; while inactive, reset the
speed to 300 (the colour computation is presentation-layer). -/
def konamiEffect (s : GameState) (dt : ℝ) : GameState :=
  if s.konami_active then
    { s with konami_timer := s.konami_timer + dt,
             player := { s.player with speed := 1200 } }
  else
    { s with player := { s.player with speed := 300 } }

/-- `for n in npcs: n.update(dt, buildings)` (line 416), drawing the `i`-th
NPC's resample randomness from the input stream. -/
def updateNpcs (dt : ℝ) (bs : List Rect) (rnd : Nat → NpcRnd) :
    List NPC → Nat → List NPC
  | [], _ => []
  | n :: ns, i => n.update dt bs (rnd i) :: updateNpcs dt bs rnd ns (i + 1)

/-- Event phase of one loop pass (lines 338-398): fold the KEYDOWN events
through the event loop (Konami detection, `e_pressed`, debug toggle) and, if
`e` was pressed, run the enter/exit handling. -/
def stepA (s : GameState) (i : Input) : GameState :=
  let ev := i.events.foldl processEvent
    ⟨false, s.show_debug, s.progress, s.konami_active, s.konami_timer⟩
  let s1 := { s with show_debug := ev.show_debug, progress := ev.progress,
                     konami_active := ev.active, konami_timer := ev.timer }
  if ev.e_pressed then handleE s1 else s1

/-- Update phase of one loop pass (lines 400-483): Konami effect, player,
car and NPC updates, camera follow, and marker relocation when the camera
target is within 100 units of the marker and `r` is held. -/
def stepB (s : GameState) (i : Input) : GameState :=
  let s3 := konamiEffect s i.dt
  let s4 := { s3 with player := s3.player.update i.dt i.keys s3.buildings }
  let s5 := { s4 with car := s4.car.update i.dt i.keys s4.buildings }
  let s6 := { s5 with npcs := updateNpcs i.dt s5.buildings i.npcRnds s5.npcs 0 }
  let target := if s6.player.in_car then s6.car.pos else s6.player.pos
  let s7 := { s6 with cam := s6.cam.update target }
  if dist target s6.marker < 100 ∧ i.keys.r then { s7 with marker := i.markerRnd }
  else s7

/-- One pass of the main loop (lines 338-501), rendering and session-ending
events aside: the event/possession phase followed by the update phase. -/
def stepG (s : GameState) (i : Input) : GameState := stepB (stepA s i) i

/-- Session start (lines 275-336): buildings, the player spawn and the NPCs
are produced by randomized world generation and are treated as configuration
(spec section 6); the car starts at (430,30), the marker at (2200,1600), no
possession link, Konami inactive with empty progress. -/
def initState (bs : List Rect) (spawn : Vec2) (ns : List NPC) : GameState :=
  ⟨bs, mkPlayer spawn, mkCar ⟨430, 30⟩, ns, initCam, ⟨2200, 1600⟩,
   false, [], false, 0⟩

/-- The spawn-rejection rule of world generation (lines 295-301, 308-315):
neither the player spawn rect nor any NPC spawn rect overlaps a building. -/
def ValidInit (bs : List Rect) (spawn : Vec2) (ns : List NPC) : Prop :=
  ¬ anyOverlap (rectCenter spawn 24 24) bs ∧
  ∀ n ∈ ns, ¬ anyOverlap (rectCenter n.pos 20 20) bs

/-- The states the simulation can be in between ticks: a validly generated
initial state, or the result of one loop pass from a reachable state under
arbitrary inputs. -/
inductive Reachable : GameState → Prop where
  | init (bs : List Rect) (spawn : Vec2) (ns : List NPC) :
      ValidInit bs spawn ns → Reachable (initState bs spawn ns)
  | next (s : GameState) (i : Input) : Reachable s → Reachable (stepG s i)

/-! ### Helper lemmas -/

theorem sqrt_num {a b : ℝ} (hb : 0 ≤ b) (h : b ^ 2 = a) : Real.sqrt a = b := by
  subst h; exact Real.sqrt_sq hb

theorem clamp_of_lt_lo {x a b : ℝ} (hab : a ≤ b) (h : x < a) : clamp x a b = a := by
  unfold clamp
  rw [min_eq_right (le_of_lt (lt_of_lt_of_le h hab)), max_eq_left (le_of_lt h)]

theorem clamp_of_gt_hi {x a b : ℝ} (hab : a ≤ b) (h : b < x) : clamp x a b = b := by
  unfold clamp
  rw [min_eq_left (le_of_lt h), max_eq_right hab]

theorem clamp_of_mem {x a b : ℝ} (h1 : a ≤ x) (h2 : x ≤ b) : clamp x a b = x := by
  unfold clamp
  rw [min_eq_right h2, max_eq_right h1]

theorem scale_to_length_length {v : Vec2} {L : ℝ} (hv : 0 < v.length)
    (hL : 0 ≤ L) : (v.scale_to_length L).length = L := by
  unfold Vec2.scale_to_length
  rw [Vec2.length_smul, abs_of_nonneg (div_nonneg hL (le_of_lt hv))]
  field_simp

theorem length_squared_pos_iff (v : Vec2) :
    v.length_squared > 0 ↔ v ≠ ⟨0, 0⟩ := by
  unfold Vec2.length_squared
  constructor
  · intro h he
    rw [he] at h
    norm_num at h
  · intro h
    rcases eq_or_ne v.x 0 with hx | hx
    · rcases eq_or_ne v.y 0 with hy | hy
      · exact absurd (by cases v; simp_all) h
      · have : 0 < v.y ^ 2 := by positivity
        nlinarith [sq_nonneg v.x]
    · have : 0 < v.x ^ 2 := by positivity
      nlinarith [sq_nonneg v.y]

theorem cos_radians_zero : Real.cos (radians 0) = 1 := by
  unfold radians; rw [zero_mul, Real.cos_zero]

theorem sin_radians_zero : Real.sin (radians 0) = 0 := by
  unfold radians; rw [zero_mul, Real.sin_zero]

theorem cos_radians_ninety : Real.cos (radians 90) = 0 := by
  unfold radians
  rw [show (90 : ℝ) * (Real.pi / 180) = Real.pi / 2 by ring, Real.cos_pi_div_two]

theorem sin_radians_ninety : Real.sin (radians 90) = 1 := by
  unfold radians
  rw [show (90 : ℝ) * (Real.pi / 180) = Real.pi / 2 by ring, Real.sin_pi_div_two]

theorem cos_radians_neg_ninety : Real.cos (radians (-90)) = 0 := by
  unfold radians
  rw [show (-90 : ℝ) * (Real.pi / 180) = -(Real.pi / 2) by ring, Real.cos_neg,
    Real.cos_pi_div_two]

theorem sin_radians_neg_ninety : Real.sin (radians (-90)) = -1 := by
  unfold radians
  rw [show (-90 : ℝ) * (Real.pi / 180) = -(Real.pi / 2) by ring, Real.sin_neg,
    Real.sin_pi_div_two]

/-! ### Structural lemmas about the update functions -/

/-- An obstacle inset from the world border by `half` on every side (true of
every building the source's world generator can produce, whose coordinates
stay well inside `[100, 5880] x [80, 3880]`). -/
def insetFromBorder (half : ℝ) (b : Rect) : Prop :=
  half ≤ b.left ∧ b.right ≤ WORLD_W - half ∧ half ≤ b.top ∧ b.bottom ≤ WORLD_H - half

/-- Clamping a center into world bounds cannot create an overlap with an
obstacle that is inset from the border by the half-size. -/
theorem clamp_keeps_clear {c : Vec2} {sz : ℝ} {b : Rect}
    (hb : insetFromBorder (sz / 2) b)
    (hc : ¬ overlaps (rectCenter c sz sz) b) :
    ¬ overlaps (rectCenter (clampWorld c) sz sz) b := by
  obtain ⟨h1, h2, h3, h4⟩ := hb
  simp only [Rect.right, Rect.bottom] at h2 h4
  intro hov
  obtain ⟨o1, o2, o3, o4⟩ := hov
  simp only [rectCenter, clampWorld, Rect.right, Rect.bottom] at o1 o2 o3 o4
  have hW : (0 : ℝ) ≤ WORLD_W := by norm_num [WORLD_W]
  have hH : (0 : ℝ) ≤ WORLD_H := by norm_num [WORLD_H]
  rcases lt_or_le c.x 0 with hx | hx
  · rw [clamp_of_lt_lo hW hx] at o2
    linarith
  rcases lt_or_le WORLD_W c.x with hx2 | hx2
  · rw [clamp_of_gt_hi hW hx2] at o1
    linarith
  rw [clamp_of_mem hx hx2] at o1 o2
  rcases lt_or_le c.y 0 with hy | hy
  · rw [clamp_of_lt_lo hH hy] at o4
    linarith
  rcases lt_or_le WORLD_H c.y with hy2 | hy2
  · rw [clamp_of_gt_hi hH hy2] at o3
    linarith
  rw [clamp_of_mem hy hy2] at o3 o4
  exact hc ⟨o1, o2, o3, o4⟩

theorem Player.update_of_in_car {p : Player} (dt : ℝ) (k : Keys)
    (bs : List Rect) (h : p.in_car = true) : p.update dt k bs = p := by
  unfold Player.update
  rw [if_pos h]

theorem Player.update_in_car (p : Player) (dt : ℝ) (k : Keys) (bs : List Rect) :
    (p.update dt k bs).in_car = p.in_car := by
  unfold Player.update
  split
  · rfl
  · dsimp only
    split
    · split <;> rfl
    · rfl

theorem Player.update_speed (p : Player) (dt : ℝ) (k : Keys) (bs : List Rect) :
    (p.update dt k bs).speed = p.speed := by
  unfold Player.update
  split
  · rfl
  · dsimp only
    split
    · split <;> rfl
    · rfl

theorem Player.update_of_reject {p : Player} {dt : ℝ} {k : Keys} {bs : List Rect}
    (h : p.in_car = false)
    (hcol : anyOverlap
      (rectCenter (p.pos + (p.speed * dt) • (dirFromKeys k).normalize) p.size p.size) bs) :
    p.update dt k bs = { p with pos := clampWorld p.pos } := by
  unfold Player.update
  rw [if_neg (by rw [h]; simp)]
  dsimp only
  by_cases hd : (dirFromKeys k).length_squared > 0
  · rw [if_pos hd, if_pos hcol]
  · rw [if_neg hd]

theorem Player.update_of_accept {p : Player} {dt : ℝ} {k : Keys} {bs : List Rect}
    (h : p.in_car = false) (hd : (dirFromKeys k).length_squared > 0)
    (hcol : ¬ anyOverlap
      (rectCenter (p.pos + (p.speed * dt) • (dirFromKeys k).normalize) p.size p.size) bs) :
    p.update dt k bs =
      { p with pos := clampWorld (p.pos + (p.speed * dt) • (dirFromKeys k).normalize) } := by
  unfold Player.update
  rw [if_neg (by rw [h]; simp)]
  dsimp only
  rw [if_pos hd, if_neg hcol]

theorem Player.update_of_no_intent {p : Player} {dt : ℝ} {k : Keys} {bs : List Rect}
    (h : p.in_car = false) (hd : ¬ (dirFromKeys k).length_squared > 0) :
    p.update dt k bs = { p with pos := clampWorld p.pos } := by
  unfold Player.update
  rw [if_neg (by rw [h]; simp)]
  dsimp only
  rw [if_neg hd]

theorem dirFromKeys_kFalse : dirFromKeys kFalse = ⟨0, 0⟩ := by
  unfold dirFromKeys kFalse
  norm_num

theorem Car.applyInput_of_no_driver {c : Car} (dt : ℝ) (k : Keys)
    (h : c.driver = false) : c.applyInput dt k = c := by
  unfold Car.applyInput
  rw [if_neg (by rw [h]; simp)]

theorem Car.applyInput_driver (c : Car) (dt : ℝ) (k : Keys) :
    (c.applyInput dt k).driver = c.driver := by
  unfold Car.applyInput
  split <;> rfl

theorem Car.update_driver (c : Car) (dt : ℝ) (k : Keys) (bs : List Rect) :
    (c.update dt k bs).driver = c.driver := by
  unfold Car.update
  dsimp only
  split <;> exact c.applyInput_driver dt k

theorem NPC.tick_pos (n : NPC) (dt : ℝ) (rnd : NpcRnd) :
    (n.tick dt rnd).pos = n.pos := by
  unfold NPC.tick
  dsimp only
  split <;> rfl

theorem NPC.tick_size (n : NPC) (dt : ℝ) (rnd : NpcRnd) :
    (n.tick dt rnd).size = n.size := by
  unfold NPC.tick
  dsimp only
  split <;> rfl

theorem NPC.tick_speed (n : NPC) (dt : ℝ) (rnd : NpcRnd) :
    (n.tick dt rnd).speed = n.speed := by
  unfold NPC.tick
  dsimp only
  split <;> rfl

theorem NPC.move_of_reject {n : NPC} {dt : ℝ} {bs : List Rect}
    (hcol : anyOverlap (rectCenter (n.pos + (n.speed * dt) • n.dir) n.size n.size) bs) :
    n.move dt bs = { n with pos := clampWorld n.pos } := by
  unfold NPC.move
  dsimp only
  rw [if_pos hcol]

theorem NPC.move_of_accept {n : NPC} {dt : ℝ} {bs : List Rect}
    (hcol : ¬ anyOverlap (rectCenter (n.pos + (n.speed * dt) • n.dir) n.size n.size) bs) :
    n.move dt bs = { n with pos := clampWorld (n.pos + (n.speed * dt) • n.dir) } := by
  unfold NPC.move
  dsimp only
  rw [if_neg hcol]

theorem handleE_enter {s : GameState} (h1 : s.player.in_car = false)
    (h2 : dist s.player.pos s.car.pos < 80) :
    handleE s = { s with player := { s.player with in_car := true, pos := s.car.pos },
                         car := { s.car with driver := true } } := by
  unfold handleE
  rw [if_pos ⟨h1, h2⟩]

theorem handleE_exit_clear {s : GameState} (h : s.player.in_car = true)
    (hcol : ¬ anyOverlap
      (rectCenter (s.car.pos + (⟨Real.cos (radians (s.car.angle + 90)) * 70,
                                 Real.sin (radians (s.car.angle + 90)) * 70⟩ : Vec2))
        s.player.size s.player.size) s.buildings) :
    handleE s = { s with
      player := { s.player with
        pos := clampWorld (s.car.pos + (⟨Real.cos (radians (s.car.angle + 90)) * 70,
                                        Real.sin (radians (s.car.angle + 90)) * 70⟩ : Vec2)),
        in_car := false },
      car := { s.car with driver := false, vel := (0.6 : ℝ) • s.car.vel } } := by
  unfold handleE
  rw [if_neg (by rw [h]; simp), if_pos h]
  dsimp only
  rw [if_neg hcol]

theorem handleE_exit_blocked {s : GameState} (h : s.player.in_car = true)
    (hcol : anyOverlap
      (rectCenter (s.car.pos + (⟨Real.cos (radians (s.car.angle + 90)) * 70,
                                 Real.sin (radians (s.car.angle + 90)) * 70⟩ : Vec2))
        s.player.size s.player.size) s.buildings) :
    handleE s = { s with
      player := { s.player with
        pos := clampWorld (s.car.pos + (⟨Real.cos (radians (s.car.angle - 90)) * 70,
                                        Real.sin (radians (s.car.angle - 90)) * 70⟩ : Vec2)),
        in_car := false },
      car := { s.car with driver := false, vel := (0.6 : ℝ) • s.car.vel } } := by
  unfold handleE
  rw [if_neg (by rw [h]; simp), if_pos h]
  dsimp only
  rw [if_pos hcol]

theorem handleE_noop {s : GameState} (h1 : s.player.in_car = false)
    (h2 : ¬ dist s.player.pos s.car.pos < 80) : handleE s = s := by
  unfold handleE
  rw [if_neg (by rw [h1]; simpa using h2), if_neg (by rw [h1]; simp)]

theorem handleE_konami_active (s : GameState) :
    (handleE s).konami_active = s.konami_active := by
  unfold handleE
  split
  · rfl
  · split <;> rfl

theorem handleE_speed (s : GameState) :
    (handleE s).player.speed = s.player.speed := by
  unfold handleE
  split
  · rfl
  · split <;> rfl

theorem handleE_link {s : GameState} (h : s.player.in_car = s.car.driver) :
    (handleE s).player.in_car = (handleE s).car.driver := by
  unfold handleE
  split
  · rfl
  · split
    · rfl
    · exact h

theorem konamiEffect_konami_active (s : GameState) (dt : ℝ) :
    (konamiEffect s dt).konami_active = s.konami_active := by
  by_cases h : s.konami_active <;> simp [konamiEffect, h]

theorem konamiEffect_in_car (s : GameState) (dt : ℝ) :
    (konamiEffect s dt).player.in_car = s.player.in_car := by
  by_cases h : s.konami_active <;> simp [konamiEffect, h]

theorem konamiEffect_car (s : GameState) (dt : ℝ) :
    (konamiEffect s dt).car = s.car := by
  by_cases h : s.konami_active <;> simp [konamiEffect, h]

theorem konamiEffect_speed (s : GameState) (dt : ℝ) :
    (konamiEffect s dt).player.speed =
      if s.konami_active then (1200 : ℝ) else 300 := by
  by_cases h : s.konami_active <;> simp [konamiEffect, h]

theorem processEvent_active {st : EvAcc} (k : Key) (h : st.active = true) :
    (processEvent st k).active = true := by
  unfold processEvent
  dsimp only
  split
  · rfl
  · exact h

theorem foldl_processEvent_active {l : List Key} {st : EvAcc}
    (h : st.active = true) : (l.foldl processEvent st).active = true := by
  induction l generalizing st with
  | nil => exact h
  | cons k l ih => exact ih (processEvent_active k h)

theorem stepA_konami_active (s : GameState) (i : Input) :
    (stepA s i).konami_active =
      (i.events.foldl processEvent
        ⟨false, s.show_debug, s.progress, s.konami_active, s.konami_timer⟩).active := by
  unfold stepA
  dsimp only
  split
  · rw [handleE_konami_active]
  · rfl

theorem stepA_link {s : GameState} (i : Input)
    (h : s.player.in_car = s.car.driver) :
    (stepA s i).player.in_car = (stepA s i).car.driver := by
  unfold stepA
  dsimp only
  split
  · exact handleE_link h
  · exact h

theorem stepB_konami_active (s : GameState) (i : Input) :
    (stepB s i).konami_active = s.konami_active := by
  unfold stepB
  dsimp only
  split <;> split <;> simp [konamiEffect_konami_active]

theorem stepB_speed (s : GameState) (i : Input) :
    (stepB s i).player.speed = if s.konami_active then (1200 : ℝ) else 300 := by
  unfold stepB
  dsimp only
  split <;> split <;> simp [Player.update_speed, konamiEffect_speed]

theorem stepB_link {s : GameState} (i : Input)
    (h : s.player.in_car = s.car.driver) :
    (stepB s i).player.in_car = (stepB s i).car.driver := by
  unfold stepB
  dsimp only
  split <;> split <;>
    simp [Player.update_in_car, Car.update_driver, konamiEffect_in_car,
      konamiEffect_car, h]

theorem stepG_link {s : GameState} (i : Input)
    (h : s.player.in_car = s.car.driver) :
    (stepG s i).player.in_car = (stepG s i).car.driver :=
  stepB_link i (stepA_link i h)

theorem stepG_konami_active (s : GameState) (i : Input) :
    (stepG s i).konami_active =
      (i.events.foldl processEvent
        ⟨false, s.show_debug, s.progress, s.konami_active, s.konami_timer⟩).active := by
  unfold stepG
  rw [stepB_konami_active, stepA_konami_active]

theorem stepG_speed (s : GameState) (i : Input) :
    (stepG s i).player.speed =
      if (stepG s i).konami_active then (1200 : ℝ) else 300 := by
  unfold stepG
  rw [stepB_speed, stepB_konami_active]

/-! ### Concrete instances for witnesses and counterexamples -/

theorem sqrt_4900 : Real.sqrt 4900 = 70 := sqrt_num (by norm_num) (by norm_num)

theorem sqrt_1901641 : Real.sqrt 1901641 = 1379 :=
  sqrt_num (by norm_num) (by norm_num)

theorem sqrt_24255625 : Real.sqrt 24255625 = 4925 :=
  sqrt_num (by norm_num) (by norm_num)

theorem dist_eval {x1 y1 x2 y2 d : ℝ} (hd : 0 ≤ d)
    (h : (x1 - x2) ^ 2 + (y1 - y2) ^ 2 = d ^ 2) :
    dist (⟨x1, y1⟩ : Vec2) ⟨x2, y2⟩ = d := by
  unfold dist Vec2.length
  rw [Vec2.sub_mk]
  exact sqrt_num hd h.symm

@[simp] theorem key_e_ne_up : (Key.e = Key.up) = False :=
  eq_false fun h => Key.noConfusion h

@[simp] theorem key_e_ne_f1 : (Key.e = Key.f1) = False :=
  eq_false fun h => Key.noConfusion h

@[simp] theorem decide_key_e_up : decide (Key.e = Key.up) = false := rfl

@[simp] theorem decide_key_e_f1 : decide (Key.e = Key.f1) = false := rfl

@[simp] theorem decide_key_e_e : decide (Key.e = Key.e) = true := rfl

/-- Obstacle blocking the right-hand (heading+90) exit of a car at (430,30)
with heading 0. -/
def cexB1 : Rect := ⟨415, 80, 80, 80⟩

/-- Obstacle straddling the top world border region, blocking the clamped
left-hand exit position. -/
def cexB2 : Rect := ⟨415, 1, 80, 80⟩

/-- Tick input: one `e` KEYDOWN, no held keys, dt = 1. -/
def cexIn : Input := ⟨1, [Key.e], kFalse, fun _ => ⟨0, ⟨0, 0⟩⟩, ⟨0, 0⟩⟩

/-- Initial state for the C1 counterexample: spawn within interaction range
of the car, both exit sides of the car's start position blocked. -/
def cexS0 : GameState := initState [cexB1, cexB2] ⟨360, 30⟩ []

/-- State after tick 1 of the C1 trace (player entered the car). -/
def cexS1 : GameState :=
  ⟨[cexB1, cexB2], ⟨⟨430, 30⟩, 300, 24, true⟩,
   ⟨⟨430, 30⟩, ⟨0, 0⟩, 0, ⟨56, 32⟩, 900, 1400, 2600, 160, 0.985, true⟩,
   [], ⟨⟨0, 0⟩, 1280, 720⟩, ⟨2200, 1600⟩, false, [Key.e], false, 0⟩

/-- State after tick 2 of the C1 trace (player exited onto the clamped
left-side exit position, inside obstacle `cexB2`). -/
def cexS2 : GameState :=
  ⟨[cexB1, cexB2], ⟨⟨430, 0⟩, 300, 24, false⟩,
   ⟨⟨430, 30⟩, ⟨0, 0⟩, 0, ⟨56, 32⟩, 900, 1400, 2600, 160, 0.985, false⟩,
   [], ⟨⟨0, 0⟩, 1280, 720⟩, ⟨2200, 1600⟩, false, [Key.e, Key.e], false, 0⟩

/-- Tick input for the C2 trace: one `e` KEYDOWN with throttle held. -/
def cex2In : Input :=
  ⟨1, [Key.e], ⟨true, false, false, false, false⟩, fun _ => ⟨0, ⟨0, 0⟩⟩, ⟨0, 0⟩⟩

/-- Initial state for the C2 counterexample: empty world, spawn in range. -/
def cex2S0 : GameState := initState [] ⟨360, 30⟩ []

/-- State after one tick of the C2 trace: the player entered and the car
immediately accelerated away; the player's stored position lags behind. -/
def cex2S1 : GameState :=
  ⟨[], ⟨⟨430, 30⟩, 300, 24, true⟩,
   ⟨⟨1330, 30⟩, ⟨900, 0⟩, 0, ⟨56, 32⟩, 900, 1400, 2600, 160, 0.985, true⟩,
   [], ⟨⟨690, 0⟩, 1280, 720⟩, ⟨2200, 1600⟩, false, [Key.e], false, 0⟩

theorem cex_step1 : stepG cexS0 cexIn = cexS1 := by
  norm_num [stepG, stepA, stepB, cexS0, cexS1, cexIn, cexB1, cexB2, initState,
    mkPlayer, mkCar, initCam, processEvent, lastN, konami_code, handleE,
    konamiEffect, Player.update, Car.update, Car.applyInput, frictClamp,
    updateNpcs, Camera.update, dist, Vec2.length, Vec2.length_squared,
    Vec2.normalize, Vec2.scale_to_length, dirFromKeys, kFalse, anyOverlap,
    overlaps, rectCenter, Rect.right, Rect.bottom, clampWorld, clamp, WORLD_W,
    WORLD_H, SCREEN_W, SCREEN_H, min_def, max_def, cos_radians_zero,
    sin_radians_zero, cos_radians_ninety, sin_radians_ninety,
    cos_radians_neg_ninety, sin_radians_neg_ninety, sqrt_4900, sqrt_1901641]

theorem cex_step2 : stepG cexS1 cexIn = cexS2 := by
  norm_num [stepG, stepA, stepB, cexS1, cexS2, cexIn, cexB1, cexB2, initState,
    mkPlayer, mkCar, initCam, processEvent, lastN, konami_code, handleE,
    konamiEffect, Player.update, Car.update, Car.applyInput, frictClamp,
    updateNpcs, Camera.update, dist, Vec2.length, Vec2.length_squared,
    Vec2.normalize, Vec2.scale_to_length, dirFromKeys, kFalse, anyOverlap,
    overlaps, rectCenter, Rect.right, Rect.bottom, clampWorld, clamp, WORLD_W,
    WORLD_H, SCREEN_W, SCREEN_H, min_def, max_def, cos_radians_zero,
    sin_radians_zero, cos_radians_ninety, sin_radians_ninety,
    cos_radians_neg_ninety, sin_radians_neg_ninety, sqrt_4900, sqrt_1901641]

theorem cex2_step : stepG cex2S0 cex2In = cex2S1 := by
  norm_num [stepG, stepA, stepB, cex2S0, cex2S1, cex2In, initState,
    mkPlayer, mkCar, initCam, processEvent, lastN, konami_code, handleE,
    konamiEffect, Player.update, Car.update, Car.applyInput, frictClamp,
    updateNpcs, Camera.update, dist, Vec2.length, Vec2.length_squared,
    Vec2.normalize, Vec2.scale_to_length, dirFromKeys, kFalse, anyOverlap,
    overlaps, rectCenter, Rect.right, Rect.bottom, clampWorld, clamp, WORLD_W,
    WORLD_H, SCREEN_W, SCREEN_H, min_def, max_def, cos_radians_zero,
    sin_radians_zero, cos_radians_ninety, sin_radians_ninety,
    cos_radians_neg_ninety, sin_radians_neg_ninety, sqrt_4900, sqrt_1901641]

/-! ### Claim theorems -/

/-- Claim C1 (amended): the on-foot movement update (player or NPC) never
creates an overlap with an obstacle: starting from a position whose bounding
rectangle overlaps no obstacle, with every obstacle inset from the world
border by the agent's half-size, the post-update bounding rectangle overlaps
no obstacle.  (The full-simulation claim fails: the exit-vehicle branch can
leave the player overlapping an obstacle, see the counterexample.) -/
theorem c1_on_foot_no_penetration :
    (∀ (p : Player) (dt : ℝ) (k : Keys) (bs : List Rect),
      p.in_car = false →
      (∀ b ∈ bs, insetFromBorder (p.size / 2) b) →
      (∀ b ∈ bs, ¬ overlaps (rectCenter p.pos p.size p.size) b) →
      ∀ b ∈ bs, ¬ overlaps (rectCenter (p.update dt k bs).pos p.size p.size) b) ∧
    (∀ (n : NPC) (dt : ℝ) (bs : List Rect) (rnd : NpcRnd),
      (∀ b ∈ bs, insetFromBorder (n.size / 2) b) →
      (∀ b ∈ bs, ¬ overlaps (rectCenter n.pos n.size n.size) b) →
      ∀ b ∈ bs, ¬ overlaps (rectCenter (n.update dt bs rnd).pos n.size n.size) b) := by
  constructor
  · intro p dt k bs hin hinset hclear b hb
    by_cases hd : (dirFromKeys k).length_squared > 0
    · by_cases hcol : anyOverlap
        (rectCenter (p.pos + (p.speed * dt) • (dirFromKeys k).normalize) p.size p.size) bs
      · rw [Player.update_of_reject hin hcol]
        exact clamp_keeps_clear (hinset b hb) (hclear b hb)
      · rw [Player.update_of_accept hin hd hcol]
        refine clamp_keeps_clear (hinset b hb) ?_
        intro hov
        exact hcol ((anyOverlap_iff _ _).2 ⟨b, hb, hov⟩)
    · rw [Player.update_of_no_intent hin hd]
      exact clamp_keeps_clear (hinset b hb) (hclear b hb)
  · intro n dt bs rnd hinset hclear b hb
    unfold NPC.update
    have hps : (n.tick dt rnd).pos = n.pos := NPC.tick_pos n dt rnd
    have hsz : (n.tick dt rnd).size = n.size := NPC.tick_size n dt rnd
    by_cases hcol : anyOverlap
      (rectCenter ((n.tick dt rnd).pos + ((n.tick dt rnd).speed * dt) • (n.tick dt rnd).dir)
        (n.tick dt rnd).size (n.tick dt rnd).size) bs
    · rw [NPC.move_of_reject hcol]
      dsimp only
      rw [hps]
      exact clamp_keeps_clear (hinset b hb) (hclear b hb)
    · rw [NPC.move_of_accept hcol]
      dsimp only
      rw [hps]
      refine clamp_keeps_clear (hinset b hb) ?_
      intro hov
      apply hcol
      rw [anyOverlap_iff]
      refine ⟨b, hb, ?_⟩
      rw [hps, hsz]
      exact hov

/-- Claim C2 (amended): while the pedestrian possesses the vehicle its update
performs no physics at all (the state is returned unchanged), and the
position is snapped to the vehicle's position by the enter transition; it is
not re-synced afterwards, so after a tick in which the vehicle moved the
stored positions differ (see the counterexample). -/
theorem c2_in_car_no_physics :
    (∀ (p : Player) (dt : ℝ) (k : Keys) (bs : List Rect),
      p.in_car = true → p.update dt k bs = p) ∧
    (∀ s : GameState, s.player.in_car = false → dist s.player.pos s.car.pos < 80 →
      (handleE s).player.pos = (handleE s).car.pos) := by
  constructor
  · exact fun p dt k bs h => Player.update_of_in_car dt k bs h
  · intro s h1 h2
    rw [handleE_enter h1 h2]

/-- Claim C3: in the vehicle update, after the friction/speed-clamp step the
candidate is `pos + vel*dt`; when some obstacle's rectangle overlaps the
candidate's rectangle, the velocity is multiplied by -0.35, the candidate is
recomputed from the reversed velocity and accepted (then clamped to world
bounds) with no further collision check; when no obstacle overlaps, the
original candidate is accepted (then clamped). -/
theorem c3_vehicle_collision_response :
    ∀ (c : Car) (dt : ℝ) (k : Keys) (bs : List Rect),
    (let c1 := c.applyInput dt k
     let v := frictClamp c1.vel c1.friction c1.max_speed
     let cand := c1.pos + dt • v
     ((∃ b ∈ bs, overlaps (rectCenter cand c1.size.x c1.size.y) b) →
        c.update dt k bs =
          { c1 with vel := (-0.35 : ℝ) • v,
                    pos := clampWorld (c1.pos + dt • ((-0.35 : ℝ) • v)) }) ∧
     ((∀ b ∈ bs, ¬ overlaps (rectCenter cand c1.size.x c1.size.y) b) →
        c.update dt k bs = { c1 with vel := v, pos := clampWorld cand })) := by
  intro c dt k bs
  dsimp only
  constructor
  · intro h
    unfold Car.update
    dsimp only
    rw [if_pos ((anyOverlap_iff _ _).2 h)]
  · intro h
    unfold Car.update
    dsimp only
    rw [if_neg]
    intro hcol
    obtain ⟨b, hb, hov⟩ := (anyOverlap_iff _ _).1 hcol
    exact h b hb hov

/-- Claim C4: the on-foot pedestrian update with zero combined intent moves
nothing (and performs no normalization, the guarded branch is skipped);
with nonzero intent the candidate `pos + normalize(intent)*speed*dt` is
rejected in full when its rectangle overlaps any obstacle and accepted
otherwise; in every case the final position is clamped per axis into world
bounds.  The NPC movement phase applies the identical rejection/clamp logic
to its wander direction. -/
theorem c4_pedestrian_movement :
    (∀ (p : Player) (dt : ℝ) (k : Keys) (bs : List Rect), p.in_car = false →
      ((dirFromKeys k = ⟨0, 0⟩ →
         p.update dt k bs = { p with pos := clampWorld p.pos }) ∧
       (dirFromKeys k ≠ ⟨0, 0⟩ →
        (let cand := p.pos + (p.speed * dt) • (dirFromKeys k).normalize
         ((∃ b ∈ bs, overlaps (rectCenter cand p.size p.size) b) →
            p.update dt k bs = { p with pos := clampWorld p.pos }) ∧
         ((∀ b ∈ bs, ¬ overlaps (rectCenter cand p.size p.size) b) →
            p.update dt k bs = { p with pos := clampWorld cand }))))) ∧
    (∀ (n : NPC) (dt : ℝ) (bs : List Rect),
      (let cand := n.pos + (n.speed * dt) • n.dir
       ((∃ b ∈ bs, overlaps (rectCenter cand n.size n.size) b) →
          n.move dt bs = { n with pos := clampWorld n.pos }) ∧
       ((∀ b ∈ bs, ¬ overlaps (rectCenter cand n.size n.size) b) →
          n.move dt bs = { n with pos := clampWorld cand }))) := by
  constructor
  · intro p dt k bs hin
    constructor
    · intro hz
      refine Player.update_of_no_intent hin ?_
      rw [hz]
      norm_num [Vec2.length_squared]
    · intro hnz
      dsimp only
      constructor
      · intro h
        exact Player.update_of_reject hin ((anyOverlap_iff _ _).2 h)
      · intro h
        refine Player.update_of_accept hin ((length_squared_pos_iff _).2 hnz) ?_
        intro hcol
        obtain ⟨b, hb, hov⟩ := (anyOverlap_iff _ _).1 hcol
        exact h b hb hov
  · intro n dt bs
    dsimp only
    constructor
    · intro h
      exact NPC.move_of_reject ((anyOverlap_iff _ _).2 h)
    · intro h
      refine NPC.move_of_accept ?_
      intro hcol
      obtain ⟨b, hb, hov⟩ := (anyOverlap_iff _ _).1 hcol
      exact h b hb hov

/-- Claim C5: after the friction-and-clamp step the speed is at most
`max_speed` (900 for the game's car, whose friction is 0.985); when the
post-friction magnitude exceeds 900 the velocity is rescaled to exactly
magnitude 900 by a positive scalar, preserving its direction.  The step is
applied whether or not the car has a driver: without a driver the input
phase leaves the car unchanged, and `Car.update` applies `frictClamp`
unconditionally. -/
theorem c5_speed_clamp :
    (∀ v : Vec2, (frictClamp v 0.985 900).length ≤ 900) ∧
    (∀ v : Vec2, ((0.985 : ℝ) • v).length > 900 →
      frictClamp v 0.985 900 =
        (900 / ((0.985 : ℝ) • v).length) • ((0.985 : ℝ) • v) ∧
      (frictClamp v 0.985 900).length = 900 ∧
      ∃ t : ℝ, 0 < t ∧ frictClamp v 0.985 900 = t • ((0.985 : ℝ) • v)) ∧
    (∀ (c : Car) (dt : ℝ) (k : Keys), c.driver = false → c.applyInput dt k = c) ∧
    (∀ pos : Vec2, (mkCar pos).max_speed = 900 ∧ (mkCar pos).friction = 0.985) := by
  refine ⟨?_, ?_, ?_, fun pos => ⟨rfl, rfl⟩⟩
  · intro v
    unfold frictClamp
    dsimp only
    by_cases h : ((0.985 : ℝ) • v).length > 900
    · rw [if_pos h, scale_to_length_length (lt_of_le_of_lt (by norm_num) h) (by norm_num)]
    · rw [if_neg h]
      exact le_of_not_lt h
  · intro v h
    have hpos : 0 < ((0.985 : ℝ) • v).length := lt_of_le_of_lt (by norm_num) h
    have he : frictClamp v 0.985 900 =
        (900 / ((0.985 : ℝ) • v).length) • ((0.985 : ℝ) • v) := by
      unfold frictClamp
      dsimp only
      rw [if_pos h]
      rfl
    refine ⟨he, ?_, 900 / ((0.985 : ℝ) • v).length, by positivity, he⟩
    rw [he]
    rw [Vec2.length_smul, abs_of_nonneg (by positivity)]
    field_simp
  · exact fun c dt k h => Car.applyInput_of_no_driver dt k h

/-- Claim C6: at every reachable between-tick state the possession link is
symmetric: the player's possessed-vehicle reference is set exactly when the
car's driver reference is set (enter and exit write both sides in the same
branch, and no update touches either side). -/
theorem c6_possession_link_symmetry :
    ∀ s : GameState, Reachable s → s.player.in_car = s.car.driver := by
  intro s h
  induction h with
  | init bs spawn ns hv => rfl
  | next s i hr ih => exact stepG_link i ih

/-- Claim C7: when interact fires while the player is linked to the car, the
exit position is the car's position plus a 70-unit offset along heading+90
degrees; if that exit rectangle overlaps any obstacle the heading-90 offset
is used instead with no further check; the result is clamped to world
bounds, both link sides are cleared, and the car's residual velocity is
multiplied by 0.6 (its position and heading are untouched). -/
theorem c7_exit_vehicle :
    ∀ s : GameState, s.player.in_car = true →
    (let offR : Vec2 := ⟨Real.cos (radians (s.car.angle + 90)) * 70,
                         Real.sin (radians (s.car.angle + 90)) * 70⟩
     let offL : Vec2 := ⟨Real.cos (radians (s.car.angle - 90)) * 70,
                         Real.sin (radians (s.car.angle - 90)) * 70⟩
     (anyOverlap (rectCenter (s.car.pos + offR) s.player.size s.player.size) s.buildings →
        (handleE s).player.pos = clampWorld (s.car.pos + offL)) ∧
     (¬ anyOverlap (rectCenter (s.car.pos + offR) s.player.size s.player.size) s.buildings →
        (handleE s).player.pos = clampWorld (s.car.pos + offR)) ∧
     (handleE s).player.in_car = false ∧
     (handleE s).car.driver = false ∧
     (handleE s).car.vel = (0.6 : ℝ) • s.car.vel ∧
     (handleE s).car.pos = s.car.pos ∧
     (handleE s).car.angle = s.car.angle) := by
  intro s h
  dsimp only
  by_cases hcol : anyOverlap
    (rectCenter (s.car.pos + (⟨Real.cos (radians (s.car.angle + 90)) * 70,
      Real.sin (radians (s.car.angle + 90)) * 70⟩ : Vec2)) s.player.size s.player.size)
    s.buildings
  · rw [handleE_exit_blocked h hcol]
    exact ⟨fun _ => rfl, fun h' => absurd hcol h', rfl, rfl, rfl, rfl, rfl⟩
  · rw [handleE_exit_clear h hcol]
    exact ⟨fun h' => absurd h' hcol, fun _ => rfl, rfl, rfl, rfl, rfl, rfl⟩

/-- Claim C8: one loop pass never deactivates Konami (boost) mode — once
active it stays active for the rest of the session — and after every pass
the player's speed is 1200 exactly when the mode is active and 300 when it
is not. -/
theorem c8_boost_persists :
    ∀ (s : GameState) (i : Input),
      (s.konami_active = true → (stepG s i).konami_active = true) ∧
      (stepG s i).player.speed =
        (if (stepG s i).konami_active then (1200 : ℝ) else 300) := by
  intro s i
  constructor
  · intro h
    rw [stepG_konami_active]
    exact foldl_processEvent_active h
  · exact stepG_speed s i

/-- Claim C9: `Camera.update` sets the offset per axis independently to
`clamp(target - viewport/2, 0, worldSize - viewportSize)`; with world width
6000 and viewport width 1280, targets at x = 0, 6000, 3000 produce offsets
x = 0, 4720, 2360 respectively. -/
theorem c9_camera_clamp :
    (∀ (c : Camera) (t : Vec2), c.update t =
      { c with pos := ⟨clamp (t.x - c.w / 2) 0 (WORLD_W - c.w),
                       clamp (t.y - c.h / 2) 0 (WORLD_H - c.h)⟩ }) ∧
    (∀ ty : ℝ, (initCam.update ⟨0, ty⟩).pos.x = 0) ∧
    (∀ ty : ℝ, (initCam.update ⟨6000, ty⟩).pos.x = 4720) ∧
    (∀ ty : ℝ, (initCam.update ⟨3000, ty⟩).pos.x = 2360) := by
  refine ⟨fun c t => rfl, fun ty => ?_, fun ty => ?_, fun ty => ?_⟩ <;>
    norm_num [Camera.update, initCam, clamp, WORLD_W, SCREEN_W, SCREEN_H,
      min_def, max_def]

/-- Claim C10: the enter-vehicle transition only sets the two link sides and
snaps the player onto the car: the car's position, velocity and heading, the
obstacle list, the NPCs, and the player's speed are all unchanged (a moving
car keeps its full velocity). -/
theorem c10_enter_frame :
    ∀ s : GameState, s.player.in_car = false → dist s.player.pos s.car.pos < 80 →
      (handleE s).player.in_car = true ∧
      (handleE s).car.driver = true ∧
      (handleE s).player.pos = s.car.pos ∧
      (handleE s).player.speed = s.player.speed ∧
      (handleE s).car.pos = s.car.pos ∧
      (handleE s).car.vel = s.car.vel ∧
      (handleE s).car.angle = s.car.angle ∧
      (handleE s).buildings = s.buildings ∧
      (handleE s).npcs = s.npcs := by
  intro s h1 h2
  rw [handleE_enter h1 h2]
  exact ⟨rfl, rfl, rfl, rfl, rfl, rfl, rfl, rfl, rfl⟩

/-! ### Witnesses and counterexamples -/

/-- Counterexample to claim C1 as stated: a reachable state (valid spawn,
enter the car, exit the car) in which, after the tick's player update has
completed, the on-foot player's bounding rectangle overlaps an obstacle —
the blocked right-side exit falls back to the unchecked left side, whose
clamped position lies inside `cexB2`, and the zero-intent player update
keeps that position. -/
theorem c1_counterexample :
    Reachable (stepG (stepG cexS0 cexIn) cexIn) ∧
    (stepG (stepG cexS0 cexIn) cexIn).player.in_car = false ∧
    anyOverlap
      (rectCenter (stepG (stepG cexS0 cexIn) cexIn).player.pos
        (stepG (stepG cexS0 cexIn) cexIn).player.size
        (stepG (stepG cexS0 cexIn) cexIn).player.size)
      (stepG (stepG cexS0 cexIn) cexIn).buildings := by
  have hv : ValidInit [cexB1, cexB2] ⟨360, 30⟩ [] := by
    refine ⟨?_, by simp⟩
    norm_num [anyOverlap, overlaps, rectCenter, cexB1, cexB2, Rect.right,
      Rect.bottom]
  refine ⟨Reachable.next _ _ (Reachable.next _ _ (Reachable.init _ _ _ hv)), ?_, ?_⟩
  · rw [cex_step1, cex_step2]
    rfl
  · rw [cex_step1, cex_step2]
    show anyOverlap (rectCenter (⟨430, 0⟩ : Vec2) 24 24) [cexB1, cexB2]
    norm_num [anyOverlap, overlaps, rectCenter, cexB1, cexB2, Rect.right,
      Rect.bottom]

/-- Witness for the amended claim C1 theorem at a concrete input: a player
at (200,200), one obstacle at (500,500,80,80); all hypotheses hold and the
post-update rectangle overlaps no obstacle. -/
theorem c1_witness :
    (mkPlayer ⟨200, 200⟩).in_car = false ∧
    (∀ b ∈ [(⟨500, 500, 80, 80⟩ : Rect)],
      insetFromBorder ((mkPlayer ⟨200, 200⟩).size / 2) b) ∧
    (∀ b ∈ [(⟨500, 500, 80, 80⟩ : Rect)],
      ¬ overlaps (rectCenter (⟨200, 200⟩ : Vec2) 24 24) b) ∧
    (∀ b ∈ [(⟨500, 500, 80, 80⟩ : Rect)],
      ¬ overlaps
        (rectCenter ((mkPlayer ⟨200, 200⟩).update 1 kFalse
          [(⟨500, 500, 80, 80⟩ : Rect)]).pos 24 24) b) := by
  have hinset : ∀ b ∈ [(⟨500, 500, 80, 80⟩ : Rect)],
      insetFromBorder ((mkPlayer ⟨200, 200⟩).size / 2) b := by
    intro b hb
    simp only [List.mem_singleton] at hb
    subst hb
    unfold insetFromBorder Rect.right Rect.bottom WORLD_W WORLD_H mkPlayer
    norm_num
  have hclear : ∀ b ∈ [(⟨500, 500, 80, 80⟩ : Rect)],
      ¬ overlaps (rectCenter (⟨200, 200⟩ : Vec2) 24 24) b := by
    intro b hb
    simp only [List.mem_singleton] at hb
    subst hb
    unfold overlaps rectCenter Rect.right Rect.bottom
    norm_num
  exact ⟨rfl, hinset, hclear,
    (c1_on_foot_no_penetration).1 (mkPlayer ⟨200, 200⟩) 1 kFalse
      [(⟨500, 500, 80, 80⟩ : Rect)] rfl hinset hclear⟩

/-- Counterexample to claim C2's sync clause: a reachable state, one tick
after entering with throttle held, in which the player still possesses the
car but the stored player position (the entry snap) differs from the car's
current position. -/
theorem c2_counterexample :
    Reachable (stepG cex2S0 cex2In) ∧
    (stepG cex2S0 cex2In).player.in_car = true ∧
    (stepG cex2S0 cex2In).player.pos ≠ (stepG cex2S0 cex2In).car.pos := by
  have hv : ValidInit [] ⟨360, 30⟩ [] := ⟨fun h => h, by simp⟩
  refine ⟨Reachable.next _ _ (Reachable.init _ _ _ hv), ?_, ?_⟩
  · rw [cex2_step]
    rfl
  · rw [cex2_step]
    show (⟨430, 30⟩ : Vec2) ≠ ⟨1330, 30⟩
    intro h
    rw [Vec2.mk.injEq] at h
    norm_num at h

/-- Witness for the amended claim C2 theorem: a possessing player's update
returns the state unchanged, and the enter transition at distance 70 < 80
snaps the player onto the car. -/
theorem c2_witness :
    ((⟨⟨5, 5⟩, 300, 24, true⟩ : Player).in_car = true ∧
      (⟨⟨5, 5⟩, 300, 24, true⟩ : Player).update 1 kFalse [] =
        (⟨⟨5, 5⟩, 300, 24, true⟩ : Player)) ∧
    (cex2S0.player.in_car = false ∧ dist cex2S0.player.pos cex2S0.car.pos < 80 ∧
      (handleE cex2S0).player.pos = (handleE cex2S0).car.pos) := by
  have h2 : dist cex2S0.player.pos cex2S0.car.pos < 80 := by
    show dist (⟨360, 30⟩ : Vec2) ⟨430, 30⟩ < 80
    rw [dist_eval (by norm_num : (0 : ℝ) ≤ 70) (by norm_num)]
    norm_num
  exact ⟨⟨rfl, (c2_in_car_no_physics).1 _ 1 kFalse [] rfl⟩,
    ⟨rfl, h2, (c2_in_car_no_physics).2 cex2S0 rfl h2⟩⟩

/-- Witness for claim C3 at a concrete input: a stationary driverless car at
(430,30) whose candidate rectangle overlaps the obstacle (400,10,80,80); the
collision branch of the characterization applies. -/
theorem c3_witness :
    (∃ b ∈ [(⟨400, 10, 80, 80⟩ : Rect)],
      overlaps (rectCenter ((⟨430, 30⟩ : Vec2) +
        (1 : ℝ) • frictClamp ⟨0, 0⟩ 0.985 900) 56 32) b) ∧
    (mkCar ⟨430, 30⟩).update 1 kFalse [(⟨400, 10, 80, 80⟩ : Rect)] =
      { mkCar ⟨430, 30⟩ with
          vel := (-0.35 : ℝ) • frictClamp ⟨0, 0⟩ 0.985 900,
          pos := clampWorld ((⟨430, 30⟩ : Vec2) +
            (1 : ℝ) • ((-0.35 : ℝ) • frictClamp ⟨0, 0⟩ 0.985 900)) } := by
  have hf : frictClamp (⟨0, 0⟩ : Vec2) 0.985 900 = ⟨0, 0⟩ := by
    have hng : ¬ Vec2.length ((0.985 : ℝ) • (⟨0, 0⟩ : Vec2)) > 900 := by
      unfold Vec2.length
      norm_num
    unfold frictClamp
    dsimp only
    rw [if_neg hng]
    norm_num
  have hov : overlaps (rectCenter ((⟨430, 30⟩ : Vec2) +
      (1 : ℝ) • frictClamp ⟨0, 0⟩ 0.985 900) 56 32) (⟨400, 10, 80, 80⟩ : Rect) := by
    rw [hf]
    unfold overlaps rectCenter Rect.right Rect.bottom
    norm_num
  have hex : ∃ b ∈ [(⟨400, 10, 80, 80⟩ : Rect)],
      overlaps (rectCenter ((⟨430, 30⟩ : Vec2) +
        (1 : ℝ) • frictClamp ⟨0, 0⟩ 0.985 900) 56 32) b :=
    ⟨_, by simp, hov⟩
  exact ⟨hex,
    (c3_vehicle_collision_response (mkCar ⟨430, 30⟩) 1 kFalse
      [(⟨400, 10, 80, 80⟩ : Rect)]).1 hex⟩

/-- Witness for claim C4 at a concrete input: an on-foot player with all
keys released; the zero-intent branch leaves the position (clamped). -/
theorem c4_witness :
    (mkPlayer ⟨200, 200⟩).in_car = false ∧ dirFromKeys kFalse = ⟨0, 0⟩ ∧
    (mkPlayer ⟨200, 200⟩).update 1 kFalse [] =
      { mkPlayer ⟨200, 200⟩ with pos := clampWorld ⟨200, 200⟩ } := by
  exact ⟨rfl, dirFromKeys_kFalse,
    ((c4_pedestrian_movement).1 (mkPlayer ⟨200, 200⟩) 1 kFalse [] rfl).1
      dirFromKeys_kFalse⟩

/-- Witness for claim C5 at a concrete input: velocity (3000,4000) has
post-friction magnitude 4925 > 900 and is rescaled to magnitude exactly
900. -/
theorem c5_witness :
    ((0.985 : ℝ) • (⟨3000, 4000⟩ : Vec2)).length > 900 ∧
    (frictClamp ⟨3000, 4000⟩ 0.985 900).length = 900 := by
  have hl : ((0.985 : ℝ) • (⟨3000, 4000⟩ : Vec2)).length = 4925 := by
    unfold Vec2.length
    norm_num [sqrt_24255625]
  have hgt : ((0.985 : ℝ) • (⟨3000, 4000⟩ : Vec2)).length > 900 := by
    rw [hl]
    norm_num
  exact ⟨hgt, ((c5_speed_clamp).2.1 ⟨3000, 4000⟩ hgt).2.1⟩

/-- Witness for claim C6: a validly generated initial state is reachable
and satisfies the link symmetry. -/
theorem c6_witness :
    Reachable (initState [] ⟨100, 100⟩ []) ∧
    (initState [] ⟨100, 100⟩ []).player.in_car =
      (initState [] ⟨100, 100⟩ []).car.driver := by
  have hr : Reachable (initState [] ⟨100, 100⟩ []) :=
    Reachable.init [] ⟨100, 100⟩ [] ⟨fun h => h, by simp⟩
  exact ⟨hr, c6_possession_link_symmetry _ hr⟩

/-- Witness for claim C7 at a concrete input: a player possessing the car at
(430,30) with heading 0 in an obstacle-free world exits at the unclamped
right-hand offset. -/
theorem c7_witness :
    (⟨[], ⟨⟨430, 30⟩, 300, 24, true⟩, { mkCar ⟨430, 30⟩ with driver := true },
      [], initCam, ⟨2200, 1600⟩, false, [], false, 0⟩ : GameState).player.in_car = true ∧
    (handleE ⟨[], ⟨⟨430, 30⟩, 300, 24, true⟩,
      { mkCar ⟨430, 30⟩ with driver := true },
      [], initCam, ⟨2200, 1600⟩, false, [], false, 0⟩).player.pos =
      clampWorld ((⟨430, 30⟩ : Vec2) +
        ⟨Real.cos (radians ((0 : ℝ) + 90)) * 70,
         Real.sin (radians ((0 : ℝ) + 90)) * 70⟩) := by
  refine ⟨rfl, ?_⟩
  exact (c7_exit_vehicle _ rfl).2.1 (fun h => h)

/-- Witness for claim C8 at a concrete input: from a state with boost mode
active, one empty-input tick keeps it active and sets speed 1200. -/
theorem c8_witness :
    (⟨[], mkPlayer ⟨100, 100⟩, mkCar ⟨430, 30⟩, [], initCam, ⟨2200, 1600⟩,
      false, [], true, 0⟩ : GameState).konami_active = true ∧
    (stepG ⟨[], mkPlayer ⟨100, 100⟩, mkCar ⟨430, 30⟩, [], initCam,
      ⟨2200, 1600⟩, false, [], true, 0⟩
      ⟨0, [], kFalse, fun _ => ⟨0, ⟨0, 0⟩⟩, ⟨0, 0⟩⟩).konami_active = true ∧
    (stepG ⟨[], mkPlayer ⟨100, 100⟩, mkCar ⟨430, 30⟩, [], initCam,
      ⟨2200, 1600⟩, false, [], true, 0⟩
      ⟨0, [], kFalse, fun _ => ⟨0, ⟨0, 0⟩⟩, ⟨0, 0⟩⟩).player.speed = 1200 := by
  have h1 := (c8_boost_persists
    ⟨[], mkPlayer ⟨100, 100⟩, mkCar ⟨430, 30⟩, [], initCam, ⟨2200, 1600⟩,
      false, [], true, 0⟩
    ⟨0, [], kFalse, fun _ => ⟨0, ⟨0, 0⟩⟩, ⟨0, 0⟩⟩).1 rfl
  have h2 := (c8_boost_persists
    ⟨[], mkPlayer ⟨100, 100⟩, mkCar ⟨430, 30⟩, [], initCam, ⟨2200, 1600⟩,
      false, [], true, 0⟩
    ⟨0, [], kFalse, fun _ => ⟨0, ⟨0, 0⟩⟩, ⟨0, 0⟩⟩).2
  rw [h1] at h2
  exact ⟨rfl, h1, by simpa using h2⟩

/-- Witness for claim C10 at a concrete input: an on-foot player 70 units
from a moving car; entering preserves the car's velocity and snaps the
player onto it. -/
theorem c10_witness :
    (⟨[], mkPlayer ⟨360, 30⟩, { mkCar ⟨430, 30⟩ with vel := ⟨5, 0⟩ }, [],
      initCam, ⟨2200, 1600⟩, false, [], false, 0⟩ : GameState).player.in_car = false ∧
    dist (⟨360, 30⟩ : Vec2) ⟨430, 30⟩ < 80 ∧
    (handleE ⟨[], mkPlayer ⟨360, 30⟩, { mkCar ⟨430, 30⟩ with vel := ⟨5, 0⟩ },
      [], initCam, ⟨2200, 1600⟩, false, [], false, 0⟩).player.pos = ⟨430, 30⟩ ∧
    (handleE ⟨[], mkPlayer ⟨360, 30⟩, { mkCar ⟨430, 30⟩ with vel := ⟨5, 0⟩ },
      [], initCam, ⟨2200, 1600⟩, false, [], false, 0⟩).car.vel = ⟨5, 0⟩ := by
  have h2 : dist (⟨360, 30⟩ : Vec2) ⟨430, 30⟩ < 80 := by
    rw [dist_eval (by norm_num : (0 : ℝ) ≤ 70) (by norm_num)]
    norm_num
  obtain ⟨hA, hB, hC, hD, hE, hF, hG, hH, hI⟩ := c10_enter_frame
    ⟨[], mkPlayer ⟨360, 30⟩, { mkCar ⟨430, 30⟩ with vel := ⟨5, 0⟩ }, [],
      initCam, ⟨2200, 1600⟩, false, [], false, 0⟩ rfl h2
  exact ⟨rfl, h2, hC, hF⟩

end MiniGta
